import Mathlib

/-!
Verification of the operation-lifecycle and progress-tracking core of the
fileops repository (package engine, package progress, package domain).

The Go source is shallowly embedded: each Go method becomes a pure Lean
function on an explicit state value.  Machine integers (int64, int) are
modelled as Int; timestamps are modelled in whole seconds as Int, so that
Go's float64 divisions followed by an int64 conversion (which truncates
toward zero) become Int.tdiv.  Maps are modelled as association lists in
insertion order; channels as bounded queues; a goroutine's interleaving is
modelled by the sequential order the claims speak about.  Mutexes and
contexts are dropped: every claim below is about the sequential behaviour
of one writer, which is what the locks serialize.
-/

namespace FileOps

/-- OperationStatus from pkg/domain (status strings of the Go source). -/
inductive OperationStatus where
  | pending
  | running
  | completed
  | failed
  | cancelled
  | paused
deriving DecidableEq, Repr

/-- OperationType from pkg/domain, restricted to the registered built-ins. -/
inductive OperationType where
  | cleanup
  | deduplication
  | consolidation
  | ownership
deriving DecidableEq, Repr

/-- String form of an operation type (domain.OperationType.String). -/
def OperationType.str : OperationType → String
  | .cleanup => "cleanup"
  | .deduplication => "deduplication"
  | .consolidation => "consolidation"
  | .ownership => "ownership"

/-- One entry of the sliding speed window (speedSample in pkg/progress/tracker.go);
timestamps are whole seconds. -/
structure SpeedSample where
  timestamp : Int
  items : Int
  bytes : Int
deriving DecidableEq, Repr

/-- OperationTracker from pkg/progress/tracker.go.  The pause/resume signal
channels have capacity one in the source; a channel holding a pending signal
is a Bool here (send with a full channel is dropped by the select default).
The tracker's own cancellation context is the flag ctxCancelled. -/
structure OperationTracker where
  id : String
  operationType : OperationType
  status : OperationStatus
  endTime : Option Int
  currentStep : String
  stepsCompleted : Int
  totalSteps : Int
  itemsProcessed : Int
  totalItems : Int
  bytesProcessed : Int
  totalBytes : Int
  speedSamples : List SpeedSample
  maxSpeedSamples : Nat
  errors : List String
  ctxCancelled : Bool
  pausePending : Bool
  resumePending : Bool
  isPaused : Bool
deriving DecidableEq, Repr

/-- Tracker.StartOperation's freshly built tracker (pkg/progress/tracker.go,
StartOperation): status Running, step "Initializing", empty ten-slot window. -/
def startTracker (id : String) (operationType : OperationType) (totalSteps : Int) : OperationTracker :=
  { id := id
    operationType := operationType
    status := .running
    endTime := none
    currentStep := "Initializing"
    stepsCompleted := 0
    totalSteps := totalSteps
    itemsProcessed := 0
    totalItems := 0
    bytesProcessed := 0
    totalBytes := 0
    speedSamples := []
    maxSpeedSamples := 10
    errors := []
    ctxCancelled := false
    pausePending := false
    resumePending := false
    isPaused := false }

/-- OperationTracker.UpdateStep: record the step name and bump the counter. -/
def OperationTracker.updateStep (ot : OperationTracker) (step : String) : OperationTracker :=
  { ot with currentStep := step, stepsCompleted := ot.stepsCompleted + 1 }

/-- Append a speed sample and evict the oldest once the window exceeds its
capacity (the source appends, then drops samples[0] when over maxSpeedSamples). -/
def pushSample (samples : List SpeedSample) (maxN : Nat) (s : SpeedSample) : List SpeedSample :=
  let appended := samples ++ [s]
  if maxN < appended.length then appended.drop 1 else appended

/-- OperationTracker.UpdateProgress: absolute counter update plus a window sample. -/
def OperationTracker.updateProgress (ot : OperationTracker)
    (itemsProcessed totalItems bytesProcessed totalBytes now : Int) : OperationTracker :=
  { ot with
    itemsProcessed := itemsProcessed
    totalItems := totalItems
    bytesProcessed := bytesProcessed
    totalBytes := totalBytes
    speedSamples := pushSample ot.speedSamples ot.maxSpeedSamples
      ⟨now, itemsProcessed, bytesProcessed⟩ }

/-- OperationTracker.IncrementProgress: delta counter update plus a window sample. -/
def OperationTracker.incrementProgress (ot : OperationTracker) (items bytes now : Int) : OperationTracker :=
  { ot with
    itemsProcessed := ot.itemsProcessed + items
    bytesProcessed := ot.bytesProcessed + bytes
    speedSamples := pushSample ot.speedSamples ot.maxSpeedSamples
      ⟨now, ot.itemsProcessed + items, ot.bytesProcessed + bytes⟩ }

/-- OperationTracker.SetTotals. -/
def OperationTracker.setTotals (ot : OperationTracker) (totalItems totalBytes : Int) : OperationTracker :=
  { ot with totalItems := totalItems, totalBytes := totalBytes }

/-- OperationTracker.AddError: append to the error list; the status is untouched. -/
def OperationTracker.addError (ot : OperationTracker) (err : String) : OperationTracker :=
  { ot with errors := ot.errors ++ [err] }

/-- OperationTracker.Complete: unconditionally sets status Completed and stamps
an end time (the source has no terminal-state guard). -/
def OperationTracker.complete (ot : OperationTracker) (now : Int) : OperationTracker :=
  { ot with status := .completed, endTime := some now }

/-- OperationTracker.Fail: unconditionally sets status Failed, stamps an end
time and appends the message to the error list. -/
def OperationTracker.fail (ot : OperationTracker) (err : String) (now : Int) : OperationTracker :=
  { ot with status := .failed, endTime := some now, errors := ot.errors ++ [err] }

/-- OperationTracker.Cancel: unconditionally sets status Cancelled, stamps an
end time and cancels the tracker's own context. -/
def OperationTracker.cancel (ot : OperationTracker) (now : Int) : OperationTracker :=
  { ot with status := .cancelled, endTime := some now, ctxCancelled := true }

/-- OperationTracker.Pause: guarded on status Running and not already paused;
the signal send keeps at most one pending signal. -/
def OperationTracker.pause (ot : OperationTracker) : OperationTracker :=
  if ot.status = .running ∧ ot.isPaused = false then
    { ot with status := .paused, isPaused := true, pausePending := true }
  else
    ot

/-- OperationTracker.Resume: guarded on status Paused; the signal send keeps at
most one pending signal. -/
def OperationTracker.resume (ot : OperationTracker) : OperationTracker :=
  if ot.status = .paused ∧ ot.isPaused = true then
    { ot with status := .running, isPaused := false, resumePending := true }
  else
    ot

/-- Terminal statuses of the lifecycle state machine. -/
def isTerminalStatus (s : OperationStatus) : Bool :=
  s = .completed || s = .failed || s = .cancelled

/-- OperationTracker.calculateSpeed: items per second over the current window,
zero with fewer than two samples or zero elapsed time.  Go computes
int64(float64(itemsDiff) / timeDiff); with whole-second timestamps this is
truncation toward zero, Int.tdiv. -/
def calculateSpeed (ot : OperationTracker) : Int :=
  match ot.speedSamples with
  | oldest :: next :: rest =>
    let latest := (next :: rest).getLastD next
    let timeDiff := latest.timestamp - oldest.timestamp
    if timeDiff = 0 then 0
    else Int.tdiv (latest.items - oldest.items) timeDiff
  | _ => 0

/-- OperationTracker.calculateETA: none when the total is unknown or reached or
the speed is zero; otherwise remaining/speed seconds (Go truncates the float64
quotient toward zero through the Duration conversion). -/
def calculateETA (ot : OperationTracker) : Option Int :=
  if ot.totalItems = 0 ∨ ot.totalItems ≤ ot.itemsProcessed then none
  else if calculateSpeed ot = 0 then none
  else some (Int.tdiv (ot.totalItems - ot.itemsProcessed) (calculateSpeed ot))

/-- ProgressInfo from pkg/domain, as filled by GetProgressInfo.  The free-form
details map is modelled by the only two entries this core ever writes into it
(error_count and all_errors, both present exactly when the error list is
non-empty); errorLatest is the Error field. -/
structure ProgressInfo where
  id : String
  operationType : OperationType
  status : OperationStatus
  endTime : Option Int
  currentStep : String
  stepsCompleted : Int
  totalSteps : Int
  itemsProcessed : Int
  totalItems : Int
  bytesProcessed : Int
  totalBytes : Int
  speed : Int
  estimatedETA : Option Int
  errorLatest : Option String
  detailErrorCount : Option Nat
  detailAllErrors : Option (List String)
deriving DecidableEq, Repr

/-- OperationTracker.GetProgressInfo: the immutable snapshot. -/
def getProgressInfo (ot : OperationTracker) : ProgressInfo :=
  { id := ot.id
    operationType := ot.operationType
    status := ot.status
    endTime := ot.endTime
    currentStep := ot.currentStep
    stepsCompleted := ot.stepsCompleted
    totalSteps := ot.totalSteps
    itemsProcessed := ot.itemsProcessed
    totalItems := ot.totalItems
    bytesProcessed := ot.bytesProcessed
    totalBytes := ot.totalBytes
    speed := calculateSpeed ot
    estimatedETA := calculateETA ot
    errorLatest := ot.errors.getLast?
    detailErrorCount := if ot.errors.length > 0 then some ot.errors.length else none
    detailAllErrors := if ot.errors.length > 0 then some ot.errors else none }

/-- One subscriber channel of progress snapshots: a buffered Go channel is a
bounded queue; buffer holds the values sent but not yet received. -/
structure SubChannel where
  cap : Nat
  buffer : List ProgressInfo
deriving DecidableEq, Repr

/-- The non-blocking send of Tracker.reportProgress (select with a default
branch): deliver when there is room, otherwise skip this subscriber.  The
producer never blocks and no error is raised either way. -/
def trySend (ch : SubChannel) (p : ProgressInfo) : SubChannel :=
  if ch.buffer.length < ch.cap then { ch with buffer := ch.buffer ++ [p] } else ch

/-- Tracker.reportProgress restricted to one subscriber list: every snapshot is
offered to each channel with the non-blocking send. -/
def reportProgressFanout (chans : List SubChannel) (p : ProgressInfo) : List SubChannel :=
  chans.map (fun ch => trySend ch p)

/-- Successive broadcasts as observed by one subscriber channel that is never
drained: each snapshot in turn is offered with the non-blocking send. -/
def broadcastAll (ps : List ProgressInfo) (ch : SubChannel) : SubChannel :=
  ps.foldl trySend ch

/-- Lookup in an association list (a Go map read). -/
def assocFind {α : Type} (m : List (String × α)) (k : String) : Option α :=
  match m with
  | [] => none
  | (k2, v) :: rest => if k2 = k then some v else assocFind rest k

/-- Insert or replace in an association list (a Go map write). -/
def assocSet {α : Type} (m : List (String × α)) (k : String) (v : α) : List (String × α) :=
  match m with
  | [] => [(k, v)]
  | (k2, v2) :: rest => if k2 = k then (k, v) :: rest else (k2, v2) :: assocSet rest k v

/-- Subscriber registry of the Tracker (pkg/progress/tracker.go): the
subscribers map keyed by operation ID holds, per key, the handles of its
channels; the channel objects themselves live in a heap (handle = index) so
that dropping a registry reference and closing a channel stay distinct events,
as they are for Go channels.  An element of channels is the closed flag. -/
structure FanoutState where
  subscribers : List (String × List Nat)
  channels : List Bool
deriving DecidableEq, Repr

/-- Tracker.Subscribe: a new buffered channel (open) is appended to the heap
and its handle is appended to the subscriber list of the ID. -/
def subscribeModel (fs : FanoutState) (operationID : String) : FanoutState × Nat :=
  let handle := fs.channels.length
  let hs := (assocFind fs.subscribers operationID).getD []
  ({ subscribers := assocSet fs.subscribers operationID (hs ++ [handle])
     channels := fs.channels ++ [false] }, handle)

/-- Tracker.Unsubscribe: delete(t.subscribers, operationID).  The source only
removes the map entry; it never closes the channels (compare CleanupCompleted,
which does close them on eviction). -/
def unsubscribeModel (fs : FanoutState) (operationID : String) : FanoutState :=
  { fs with subscribers := fs.subscribers.filter (fun kv => kv.1 ≠ operationID) }

/-- OperationManager state (internal/engine/engine.go): the set of active
operation IDs and the hard cap.  The map values (the operations) do not matter
for the cap, so the active map is carried as its key list. -/
structure ManagerState where
  activeOperations : List String
  maxConcurrent : Nat
deriving DecidableEq, Repr

/-- Outcome of OperationManager.SubmitOperation. -/
inductive SubmitOutcome where
  | accepted (operationID : String) (st : ManagerState)
  | limitExceeded
deriving DecidableEq, Repr

/-- OperationManager.SubmitOperation: under one lock, reject when the active
map already has maxConcurrent entries, else generate an ID and start the
background execution.  Faithful to the source: the accepted ID is never
inserted into activeOperations — no statement writes to the map between the
length check and the return. -/
def submitOperation (om : ManagerState) (newID : String) : SubmitOutcome :=
  if om.maxConcurrent ≤ om.activeOperations.length then .limitExceeded
  else .accepted newID om

/-- The deferred delete the background goroutine runs when the operation
finishes (a no-op whenever the ID was never registered). -/
def finishOperation (om : ManagerState) (operationID : String) : ManagerState :=
  { om with activeOperations := om.activeOperations.erase operationID }

/-- OperationConfig from pkg/domain, restricted to the fields this core reads.
similarityThreshold models the float64 field exactly as a rational;
customSettingsKeys models the CustomSettings map by its key list (none for a
nil map), the only aspect the validated paths inspect. -/
structure OperationConfig where
  dryRun : Bool := false
  recursive : Bool := false
  excludePatterns : List String := []
  includePatterns : List String := []
  maxFileSize : Int := 0
  minFileSize : Int := 0
  backupBeforeDelete : Bool := false
  backupDirectory : String := ""
  parallelism : Int := 0
  hashAlgorithm : String := ""
  similarityThreshold : Rat := 0
  customSettingsKeys : Option (List String) := none
deriving DecidableEq, Repr

/-- Hash algorithm names accepted by BaseOperation.ValidateConfig. -/
def validAlgorithms : List String :=
  ["md5", "sha1", "sha256", "sha512", "blake2b", "xxhash64", "crc32"]

/-- BaseOperation.ValidateConfig (internal/engine/engine.go): the common
value checks — negative parallelism, min greater than max file size, threshold
outside the unit interval, unknown hash algorithm name. -/
def validateConfig (c : OperationConfig) : Except String Unit :=
  if c.parallelism < 0 then .error "parallelism cannot be negative"
  else if c.maxFileSize > 0 ∧ c.minFileSize > 0 ∧ c.maxFileSize < c.minFileSize then
    .error "min file size cannot be greater than max file size"
  else if c.similarityThreshold < 0 ∨ 1 < c.similarityThreshold then
    .error "similarity threshold must be between 0.0 and 1.0"
  else if c.hashAlgorithm ≠ "" ∧ ¬ (c.hashAlgorithm ∈ validAlgorithms) then
    .error ("unsupported hash algorithm: " ++ c.hashAlgorithm)
  else .ok ()

/-- The per-factory Validate methods the engine actually calls
(CleanupFactory/DeduplicationFactory/ConsolidationFactory/OwnershipFactory in
internal/engine/cleanup.go and operations.go).  The first three return nil
unconditionally (deduplication only defaults a local copy of the algorithm
name); ownership requires a CustomSettings map with a target_user key. -/
def factoryValidate : OperationType → OperationConfig → Except String Unit
  | .cleanup, _ => .ok ()
  | .deduplication, _ => .ok ()
  | .consolidation, _ => .ok ()
  | .ownership, c =>
    match c.customSettingsKeys with
    | none => .error "ownership operation requires custom settings"
    | some keys =>
      if "target_user" ∈ keys then .ok () else .error "target_user parameter is required"

/-- What Engine.ExecuteOperation does before and after the validation call:
on a validation error it returns before any side effect; otherwise it starts
the tracker and invokes Execute. -/
structure EngineCallTrace where
  trackerStarted : Bool
  executeInvoked : Bool
  validationError : Option String
deriving DecidableEq, Repr

/-- The validation gate of Engine.ExecuteOperation: factory lookup (all four
built-ins are registered), then factory.Validate, then tracker start and
Execute. -/
def engineValidationTrace (t : OperationType) (c : OperationConfig) : EngineCallTrace :=
  match factoryValidate t c with
  | .error e =>
    { trackerStarted := false, executeInvoked := false
      validationError := some ("configuration validation failed: " ++ e) }
  | .ok _ =>
    { trackerStarted := true, executeInvoked := true, validationError := none }

/-- Parse one character-class element of a glob pattern, as Go's getEsc in
path/filepath/match.go: rejects an empty chunk, a leading dash or bracket and
a trailing backslash, and requires the class to continue after the element.
None models ErrBadPattern. -/
def getEsc : List Char → Option (Char × List Char)
  | [] => none
  | c :: cs =>
    if c = '-' ∨ c = ']' then none
    else if c = '\\' then
      match cs with
      | [] => none
      | d :: ds => if ds.isEmpty then none else some (d, ds)
    else if cs.isEmpty then none else some (c, cs)

/-- Scan a character class after the opening bracket (and after an optional
caret): ranges lo-hi or single characters, closed by a bracket once at least
one range was read.  Returns whether the character matched some range, and the
pattern rest after the closing bracket; none models ErrBadPattern.  Fuel
bounds the recursion; each step consumes at least one pattern character. -/
def classMatchAux : Nat → List Char → Char → Bool → Nat → Option (Bool × List Char)
  | 0, _, _, _, _ => none
  | fuel + 1, chunk, r, acc, nrange =>
    match chunk with
    | ']' :: rest =>
      if 0 < nrange then some (acc, rest) else none
    | _ =>
      match getEsc chunk with
      | none => none
      | some (lo, rest1) =>
        match rest1 with
        | '-' :: rest2 =>
          match getEsc rest2 with
          | none => none
          | some (hi, rest3) =>
            classMatchAux fuel rest3 r (acc || (decide (lo ≤ r) && decide (r ≤ hi))) (nrange + 1)
        | _ => classMatchAux fuel rest1 r (acc || (lo == r)) (nrange + 1)

/-- Character-class match including the optional leading negation caret. -/
def classMatch (chunk : List Char) (r : Char) : Option (Bool × List Char) :=
  match chunk with
  | '^' :: rest => (classMatchAux (rest.length + 1) rest r false 0).map (fun pr => (!pr.1, pr.2))
  | _ => (classMatchAux (chunk.length + 1) chunk r false 0).map (fun pr => (pr.1, pr.2))

/-- Glob matching of Go's filepath.Match with the slash separator: a star
matches any run of non-separator characters, a question mark one non-separator
character, classes as above, a backslash escapes.  A malformed pattern yields
false, because every caller in the repository discards Match's error value
(matched, _ := filepath.Match(...)), leaving matched false.  Fuel bounds the
mutual star recursion; every step consumes a pattern or subject character. -/
def globMatchFuel : Nat → List Char → List Char → Bool
  | 0, _, _ => false
  | fuel + 1, pat, s =>
    match pat, s with
    | [], [] => true
    | [], _ :: _ => false
    | '*' :: p, sNow =>
      globMatchFuel fuel p sNow ||
        (match sNow with
         | c :: s2 => !(c == '/') && globMatchFuel fuel ('*' :: p) s2
         | [] => false)
    | '?' :: p, c :: s2 => !(c == '/') && globMatchFuel fuel p s2
    | '?' :: _, [] => false
    | '[' :: p, c :: s2 =>
      (match classMatch p c with
       | some (hit, rest) => hit && globMatchFuel fuel rest s2
       | none => false)
    | '[' :: _, [] => false
    | '\\' :: x :: p, c :: s2 => (x == c) && globMatchFuel fuel p s2
    | '\\' :: _, _ => false
    | x :: p, c :: s2 => (x == c) && globMatchFuel fuel p s2
    | _ :: _, [] => false

/-- Entry point of the glob matcher, with fuel covering the worst-case depth. -/
def globMatch (pat s : List Char) : Bool :=
  globMatchFuel (pat.length + s.length + 1) pat s

/-- ASCII lowering of a character list (strings.ToLower as the repository uses
it, on ASCII path characters). -/
def lowerList (l : List Char) : List Char :=
  l.map Char.toLower

/-- Whether the first list starts with the second. -/
def listStartsWith : List Char → List Char → Bool
  | _, [] => true
  | [], _ :: _ => false
  | h :: hs, n :: ns => (h == n) && listStartsWith hs ns

/-- Whether the needle occurs contiguously anywhere in the haystack
(strings.Contains). -/
def containsSub (hay needle : List Char) : Bool :=
  match hay with
  | [] => needle.isEmpty
  | _ :: rest => listStartsWith hay needle || containsSub rest needle

/-- Trailing slashes removed from the end of a character list. -/
def stripTrailingSlashes (l : List Char) : List Char :=
  (l.reverse.dropWhile (fun c => c == '/')).reverse

/-- Characters after the last slash (the whole list when no slash occurs). -/
def afterLastSlash (l : List Char) : List Char :=
  l.foldl (fun acc c => if c = '/' then [] else acc ++ [c]) []

/-- Go's filepath.Base for the slash separator: empty path gives a dot,
trailing slashes are stripped, the last element is returned, a string of only
slashes gives a slash. -/
def goBase (s : String) : String :=
  if s = "" then "."
  else
    let l := stripTrailingSlashes s.data
    if l.isEmpty then "/" else String.mk (afterLastSlash l)

/-- Go's filepath.Dir on already-clean slash-separated paths (the walk of the
repository hands the visit function cleaned paths): everything before the last
slash; a dot when no slash occurs; the root stays the root. -/
def goDir (s : String) : String :=
  match s.data.reverse.dropWhile (fun c => !(c == '/')) with
  | [] => "."
  | _ :: rest2 => if rest2.isEmpty then "/" else String.mk rest2.reverse

/-- Directory names CleanupOperation.shouldProcessDirectory always excludes. -/
def systemDirs : List String :=
  [".git", ".svn", ".hg", "node_modules", "__pycache__", ".DS_Store"]

/-- Whether a base name is hidden: starts with a dot and is neither the dot
nor the double-dot entry. -/
def isHiddenName (s : String) : Bool :=
  match s.data with
  | c :: _ => (c == '.') && !(s == ".") && !(s == "..")
  | [] => false

/-- CleanupOperation.shouldProcessDirectory (internal/engine/cleanup.go): per
exclude pattern, a glob match of the base name or a case-insensitive substring
hit anywhere in the path excludes the directory; then the known system
directories; then hidden directories unless an include pattern matches the
base name. -/
def shouldProcessDirectory (dir : String) (cfg : OperationConfig) : Bool :=
  if cfg.excludePatterns.any (fun pat =>
      globMatch pat.data (goBase dir).data ||
        containsSub (lowerList dir.data) (lowerList pat.data)) then
    false
  else if systemDirs.any (fun d => goBase dir == d) then
    false
  else if isHiddenName (goBase dir) &&
      !(cfg.includePatterns.any (fun pat => globMatch pat.data (goBase dir).data)) then
    false
  else
    true

/-- The exclusion policy as the specification states it, written from the
claim's words to be compared with shouldProcessDirectory: excluded iff the
base name matches an exclude glob, or an exclude pattern occurs
case-insensitively as a substring of the path, or the base name is a known
system directory, or the base name is hidden and matches no include pattern. -/
def specExcludedDirectory (dir : String) (cfg : OperationConfig) : Prop :=
  (∃ pat ∈ cfg.excludePatterns, globMatch pat.data (goBase dir).data = true) ∨
  (∃ pat ∈ cfg.excludePatterns, containsSub (lowerList dir.data) (lowerList pat.data) = true) ∨
  goBase dir ∈ systemDirs ∨
  (isHiddenName (goBase dir) = true ∧
    ∀ pat ∈ cfg.includePatterns, globMatch pat.data (goBase dir).data = false)

/-- One entry a filesystem walk hands to the visit function: its path, whether
it is a directory, and whether the walk reported an error for it (in which
case the Go visit function receives a nil FileInfo). -/
structure FSEntry where
  path : String
  isDir : Bool
  err : Bool
deriving DecidableEq, Repr

/-- The filesystem collaborator (pkg/domain FileSystem) as the cleanup and
ownership operations consume it: walk yields the visit sequence under a root,
the point queries answer Exists and IsEmpty (none models an IsEmpty error),
and removeOk/chownOk decide whether a Remove or Chown call succeeds. -/
structure ModelFS where
  walk : String → List FSEntry
  pathExists : String → Bool
  isEmptyDir : String → Option Bool
  removeOk : String → Bool
  chownOk : String → Bool

/-- Filesystem calls issued by an operation, for the frame claims: the
dry-run theorems state that these lists stay empty. -/
inductive FSEffect where
  | remove (path : String)
  | chown (path : String)
deriving DecidableEq, Repr

/-- All entries walked over the configured root paths, in order. -/
def allWalkEntries (fs : ModelFS) (roots : List String) : List FSEntry :=
  (roots.map fs.walk).flatten

/-- CleanupOperation.countDirectories: error entries are skipped; a directory
passing the exclusion policy counts toward totalDirs; progress is incremented
once per error-free entry. -/
def countDirsTotal (fs : ModelFS) (cfg : OperationConfig) : Int :=
  Int.ofNat ((allWalkEntries fs cfg.includePatterns).filter
    (fun e => !e.err && e.isDir && shouldProcessDirectory e.path cfg)).length

/-- Number of IncrementProgress calls countDirectories makes. -/
def countDirsWalked (fs : ModelFS) (cfg : OperationConfig) : Nat :=
  ((allWalkEntries fs cfg.includePatterns).filter (fun e => !e.err)).length

/-- Make sure a key of the directory-contents map exists, with an empty list. -/
def ensureKey (m : List (String × List String)) (k : String) : List (String × List String) :=
  match m with
  | [] => [(k, [])]
  | (k2, v) :: rest => if k2 = k then (k2, v) :: rest else (k2, v) :: ensureKey rest k

/-- Append a child path to a key of the directory-contents map. -/
def appendChild (m : List (String × List String)) (k c : String) : List (String × List String) :=
  match m with
  | [] => [(k, [c])]
  | (k2, v) :: rest => if k2 = k then (k2, v ++ [c]) :: rest else (k2, v) :: appendChild rest k c

/-- One visit of findEmptyDirectoriesInPath: on a walk error the entry is
only recorded as a tracker error elsewhere; otherwise the parent's child list
gains this path (unless the path is its own parent) and a directory gets its
own, initially empty, entry. -/
def buildStep (m : List (String × List String)) (e : FSEntry) : List (String × List String) :=
  if e.err then m
  else
    let dir := goDir e.path
    let m1 := ensureKey m dir
    let m2 := if e.path = dir then m1 else appendChild m1 dir e.path
    if e.isDir then ensureKey m2 e.path else m2

/-- The directory-contents map one walk of a root produces.  Go iterates the
map in unspecified order; the model keeps insertion order, which the claims do
not depend on. -/
def dirContentsOf (fs : ModelFS) (root : String) : List (String × List String) :=
  (fs.walk root).foldl buildStep []

/-- Candidate empty directories of one root: recorded children list empty, the
exclusion policy passes, and the filesystem re-check still reports the
directory existing and empty. -/
def emptyDirsInPath (fs : ModelFS) (cfg : OperationConfig) (root : String) : List String :=
  ((dirContentsOf fs root).filter (fun kv =>
    kv.2.isEmpty && shouldProcessDirectory kv.1 cfg &&
      fs.pathExists kv.1 && (fs.isEmptyDir kv.1 == some true))).map (fun kv => kv.1)

/-- CleanupOperation.findEmptyDirectories: the candidates over all roots. -/
def findEmptyDirectories (fs : ModelFS) (cfg : OperationConfig) : List String :=
  (cfg.includePatterns.map (emptyDirsInPath fs cfg)).flatten

/-- Tracker errors AddError records for walk failures during the find pass. -/
def findWalkErrors (fs : ModelFS) (cfg : OperationConfig) : List String :=
  ((allWalkEntries fs cfg.includePatterns).filter (fun e => e.err)).map
    (fun e => "error accessing " ++ e.path)

/-- Number of IncrementProgress calls the find pass makes (one per entry,
error or not). -/
def findWalked (fs : ModelFS) (cfg : OperationConfig) : Nat :=
  (allWalkEntries fs cfg.includePatterns).length

/-- Mutable result state of CleanupOperation.processEmptyDirectories:
the removed and skipped lists, the tracker errors added, and the filesystem
calls issued. -/
structure CleanupProcState where
  removedDirs : List String
  skippedDirs : List String
  trackerErrors : List String
  effects : List FSEffect
deriving DecidableEq, Repr

/-- One loop iteration of processEmptyDirectories: re-check the exclusion
policy; under dry run record the directory as would-remove without touching
the filesystem; otherwise attempt the Remove, recording success in the removed
list and failure as a tracker error plus a skip; a directory failing the
policy is skipped.  A failure never aborts the loop. -/
def processOneDir (fs : ModelFS) (cfg : OperationConfig) (st : CleanupProcState) (dir : String) :
    CleanupProcState :=
  if shouldProcessDirectory dir cfg then
    if cfg.dryRun then
      { st with removedDirs := st.removedDirs ++ [dir] }
    else if fs.removeOk dir then
      { st with removedDirs := st.removedDirs ++ [dir], effects := st.effects ++ [.remove dir] }
    else
      { st with
        trackerErrors := st.trackerErrors ++ ["failed to remove directory " ++ dir]
        skippedDirs := st.skippedDirs ++ [dir]
        effects := st.effects ++ [.remove dir] }
  else
    { st with skippedDirs := st.skippedDirs ++ [dir] }

/-- CleanupOperation.processEmptyDirectories over the candidate list. -/
def processEmptyDirectories (fs : ModelFS) (cfg : OperationConfig) (dirs : List String)
    (st : CleanupProcState) : CleanupProcState :=
  dirs.foldl (processOneDir fs cfg) st

/-- Everything one cleanup execution computes besides tracker bookkeeping. -/
structure CleanupOutcome where
  totalDirs : Int
  countWalked : Nat
  findErrors : List String
  findSteps : Nat
  emptyDirs : List String
  proc : CleanupProcState
deriving DecidableEq, Repr

/-- The cleanup algorithm of CleanupOperation.Execute: counting pass, find
pass, process pass.  The only error exit reachable without cancellation is the
missing-path check of countDirectories. -/
def cleanupRun (fs : ModelFS) (cfg : OperationConfig) : Except String CleanupOutcome :=
  if cfg.includePatterns.isEmpty then
    .error "failed to count directories: no paths specified for cleanup"
  else
    let emptyDirs := findEmptyDirectories fs cfg
    .ok
      { totalDirs := countDirsTotal fs cfg
        countWalked := countDirsWalked fs cfg
        findErrors := findWalkErrors fs cfg
        findSteps := findWalked fs cfg
        emptyDirs := emptyDirs
        proc := processEmptyDirectories fs cfg emptyDirs ⟨[], [], [], []⟩ }

/-- Apply n IncrementProgress(1, 0) calls (the model clock stays at zero; the
claims below do not depend on sample timestamps of this path). -/
def incrementN (n : Nat) (t : OperationTracker) : OperationTracker :=
  (List.range n).foldl (fun acc _ => acc.incrementProgress 1 0 0) t

/-- Apply a list of AddError calls. -/
def addErrorsList (es : List String) (t : OperationTracker) : OperationTracker :=
  es.foldl (fun acc e => acc.addError e) t

/-- The tracker updates CleanupOperation.Execute issues on its own tracker, in
source order: four UpdateStep calls around the three passes, SetTotals after
counting, per-entry increments, and the AddError calls of the find and process
passes.  All of them leave the status field untouched (proved below); the
batching of the error-free interleaving is therefore faithful for the claims
about status and steps. -/
def cleanupTrackerOps (out : CleanupOutcome) (t0 : OperationTracker) : OperationTracker :=
  let t := t0.updateStep "Scanning directories"
  let t := incrementN out.countWalked t
  let t := t.updateStep "Identifying empty directories"
  let t := t.setTotals out.totalDirs 0
  let t := addErrorsList out.findErrors t
  let t := incrementN out.findSteps t
  let t := t.updateStep "Processing empty directories"
  let t := addErrorsList out.proc.trackerErrors t
  let t := incrementN out.emptyDirs.length t
  t.updateStep "Completing cleanup"

/-- OperationError from pkg/domain as CreateResult builds it. -/
structure OperationError where
  operation : String
  error : String
  recoverable : Bool
deriving DecidableEq, Repr

/-- OperationResult from pkg/domain, the free-form Details map modelled by the
keys the two operations under study write into it. -/
structure OperationResult where
  id : String
  operationType : OperationType
  status : OperationStatus
  summary : String
  itemsProcessed : Int
  bytesProcessed : Int
  errors : List OperationError
  detailErrors : List String
  detailRemovedDirs : List String
  detailSkippedDirs : List String
  detailChangedItems : List String
  detailSkippedItems : List String
  detailDryRun : Bool
deriving DecidableEq, Repr

/-- BaseOperation.CreateResult: items and bytes come from the tracker
snapshot; when the snapshot's details carry a positive error count, every
collected error string becomes an OperationError tagged with the operation
kind and Recoverable hard-coded to false.  Detail fields not set here default
to empty and are filled by the per-operation wrappers. -/
def createResult (operationType : OperationType) (id : String) (tr : OperationTracker)
    (status : OperationStatus) (summary : String) : OperationResult :=
  let info := getProgressInfo tr
  { id := id
    operationType := operationType
    status := status
    summary := summary
    itemsProcessed := info.itemsProcessed
    bytesProcessed := info.bytesProcessed
    errors :=
      match info.detailErrorCount, info.detailAllErrors with
      | some n, some es =>
        if 0 < n then
          es.map (fun e => { operation := operationType.str, error := e, recoverable := false })
        else []
      | _, _ => []
    detailErrors := []
    detailRemovedDirs := []
    detailSkippedDirs := []
    detailChangedItems := []
    detailSkippedItems := []
    detailDryRun := false }

/-- The result CleanupOperation.Execute returns on success: status Completed,
dry-run-dependent summary, details carrying the removed and skipped lists and
the dry-run flag, errors from the bound tracker via CreateResult. -/
def cleanupBuildResult (cfg : OperationConfig) (id : String) (out : CleanupOutcome)
    (tr : OperationTracker) : OperationResult :=
  let summary :=
    if cfg.dryRun then
      "Cleanup (dry run): " ++ toString out.proc.removedDirs.length ++
        " directories would be removed, " ++ toString out.proc.skippedDirs.length ++ " skipped"
    else
      "Cleanup completed: " ++ toString out.proc.removedDirs.length ++
        " directories removed, " ++ toString out.proc.skippedDirs.length ++ " skipped"
  { createResult .cleanup id tr .completed summary with
    detailRemovedDirs := out.proc.removedDirs
    detailSkippedDirs := out.proc.skippedDirs
    detailDryRun := cfg.dryRun }

/-- OwnershipOperation.changeFileOwnership on a non-Windows system: a dry run
returns nil without touching the file; otherwise Chown is invoked and its
failure is returned.  The second component lists the filesystem calls made. -/
def changeFileOwnership (fs : ModelFS) (path : String) (_uid _gid : Int) (dryRun : Bool) :
    Except String Unit × List FSEffect :=
  if dryRun then (.ok (), [])
  else if fs.chownOk path then (.ok (), [.chown path])
  else (.error ("chown failed on " ++ path), [.chown path])

/-- Mutable state of the ownership apply loop. -/
structure OwnershipLoopState where
  changedItems : List String
  skippedItems : List String
  errors : List String
  effects : List FSEffect
deriving DecidableEq, Repr

/-- One iteration of the apply loop of OwnershipOperation.Execute: a failure
is recorded into the error and skipped lists and the loop continues; a success
goes to the changed list. -/
def ownershipStep (fs : ModelFS) (uid gid : Int) (dryRun : Bool) (st : OwnershipLoopState)
    (file : String) : OwnershipLoopState :=
  match changeFileOwnership fs file uid gid dryRun with
  | (.ok _, eff) =>
    { st with changedItems := st.changedItems ++ [file], effects := st.effects ++ eff }
  | (.error e, eff) =>
    { st with
      errors := st.errors ++ [file ++ ": " ++ e]
      skippedItems := st.skippedItems ++ [file]
      effects := st.effects ++ eff }

/-- The apply loop over the scanned file list. -/
def ownershipApplyLoop (fs : ModelFS) (uid gid : Int) (dryRun : Bool) (files : List String) :
    OwnershipLoopState :=
  files.foldl (ownershipStep fs uid gid dryRun) ⟨[], [], [], []⟩

/-- The result OwnershipOperation.Execute builds: always status Completed, the
per-item error strings and the changed and skipped lists go into the Details
map, and the typed Errors list of the result is never assigned (the literal in
the source sets no Errors field), so it stays empty. -/
def ownershipBuildResult (id : String) (dryRun : Bool) (st : OwnershipLoopState) :
    OperationResult :=
  let mode := if dryRun then "dry run" else "completed"
  { id := id
    operationType := .ownership
    status := .completed
    summary := "Ownership change (" ++ mode ++ "): " ++ toString st.changedItems.length ++
      " items changed, " ++ toString st.skippedItems.length ++ " skipped, " ++
      toString st.errors.length ++ " errors"
    itemsProcessed := 0
    bytesProcessed := 0
    errors := []
    detailErrors := st.errors
    detailRemovedDirs := []
    detailSkippedDirs := []
    detailChangedItems := st.changedItems
    detailSkippedItems := st.skippedItems
    detailDryRun := dryRun }

/-- Registry state of the progress Tracker: the tracker objects live in a heap
(handle = index, in creation order) and the operations map sends an ID to the
handle of the tracker registered under it, so that re-registering an ID leaves
the earlier tracker object alive but unreachable through the map — exactly the
aliasing the engine and an operation create for one ID. -/
structure TrackerState where
  heap : List OperationTracker
  registry : List (String × Nat)

/-- Tracker.StartOperation at registry level: build the tracker, register it
under the ID (replacing any entry), return its handle. -/
def startOperation (ts : TrackerState) (id : String) (operationType : OperationType)
    (totalSteps : Int) : TrackerState × Nat :=
  let handle := ts.heap.length
  ({ heap := ts.heap ++ [startTracker id operationType totalSteps]
     registry := assocSet ts.registry id handle }, handle)

/-- Apply a mutation to the tracker object at a handle. -/
def heapModify : List OperationTracker → Nat → (OperationTracker → OperationTracker) →
    List OperationTracker
  | [], _, _ => []
  | t :: rest, 0, f => f t :: rest
  | t :: rest, n + 1, f => t :: heapModify rest n f

/-- Mutation of a registered tracker within the registry state. -/
def modifyTracker (ts : TrackerState) (handle : Nat) (f : OperationTracker → OperationTracker) :
    TrackerState :=
  { ts with heap := heapModify ts.heap handle f }

/-- Tracker.GetProgress: the snapshot of the tracker the registry currently
maps the ID to. -/
def getProgressModel (ts : TrackerState) (id : String) : Option ProgressInfo :=
  match assocFind ts.registry id with
  | none => none
  | some h =>
    match ts.heap.get? h with
    | none => none
    | some tr => some (getProgressInfo tr)

/-- Engine.ExecuteOperation for the cleanup kind, from a fresh tracker
registry: the engine starts a tracker for the generated ID with the hard-coded
five steps; CleanupOperation.Execute starts a second tracker under the same ID
with four steps (replacing the registry entry) and applies its updates there;
the engine finally calls Complete — on the tracker object it holds, the first
one — or Fail on error.  Returns the final registry state and the call
outcome. -/
def engineRunCleanup (fs : ModelFS) (cfg : OperationConfig) (id : String) :
    TrackerState × Except String Unit :=
  let ts0 : TrackerState := { heap := [], registry := [] }
  let p1 := startOperation ts0 id .cleanup 5
  let p2 := startOperation p1.1 id .cleanup 4
  match cleanupRun fs cfg with
  | .error e =>
    ((modifyTracker p2.1 p1.2 (fun t => t.fail e 0)), .error e)
  | .ok out =>
    let ts3 := modifyTracker p2.1 p2.2 (cleanupTrackerOps out)
    ((modifyTracker ts3 p1.2 (fun t => t.complete 0)), .ok ())

/-- A completed tracker, input of the terminal-state counterexample. -/
def trCompletedCex : OperationTracker :=
  (startTracker "cleanup-20250101-000000" .cleanup 5).complete 3

/-- C3 counterexample: a tracker whose status is Completed (terminal) changes
status to Failed on a subsequent Fail call, so terminal states do not block
further transitions as the claim states. -/
theorem tracker_terminal_not_frozen_cex :
    trCompletedCex.status = OperationStatus.completed ∧
    (trCompletedCex.fail "boom" 4).status = OperationStatus.failed ∧
    (trCompletedCex.fail "boom" 4).status ≠ trCompletedCex.status := by
  decide

/-- C3 (amended): once the status is Completed, Failed or Cancelled, Pause and
Resume leave it unchanged (they are guarded on Running and Paused), but
Complete, Fail and Cancel each overwrite the status unconditionally, so those
three calls do change a terminal status. -/
theorem tracker_terminal_transitions (ot : OperationTracker) (e : String) (now : Int) :
    (isTerminalStatus ot.status = true →
      (ot.pause).status = ot.status ∧ (ot.resume).status = ot.status) ∧
    ((ot.fail e now).status = .failed ∧ (ot.complete now).status = .completed ∧
      (ot.cancel now).status = .cancelled) := by
  refine ⟨fun h => ⟨?_, ?_⟩, rfl, rfl, rfl⟩
  · cases hs : ot.status <;>
      simp_all [OperationTracker.pause, isTerminalStatus]
  · cases hs : ot.status <;>
      simp_all [OperationTracker.resume, isTerminalStatus]

/-- Witness for the amended C3 theorem at a concrete terminal tracker. -/
theorem tracker_terminal_transitions_witness :
    ((trCompletedCex.pause).status = trCompletedCex.status ∧
      (trCompletedCex.resume).status = trCompletedCex.status) ∧
    (trCompletedCex.fail "x" 9).status = .failed :=
  ⟨(tracker_terminal_transitions trCompletedCex "x" 9).1 (by decide),
    (tracker_terminal_transitions trCompletedCex "x" 9).2.1⟩

/-- A tracker whose absolute progress updates decreased the item counter,
input of the negative-ETA counterexample: ten items reported at second zero,
zero items at second one, with one hundred expected in total. -/
def trNegativeSpeed : OperationTracker :=
  ((startTracker "cleanup-20250101-000000" .cleanup 4).updateProgress 10 100 0 0 0).updateProgress
    0 100 0 0 1

/-- C6 counterexample: the computed speed is negative, and the reported ETA is
a negative duration, against the claim that a reported ETA is non-negative. -/
theorem eta_negative_cex :
    calculateSpeed trNegativeSpeed = -10 ∧
    calculateETA trNegativeSpeed = some (-10) ∧ (-10 : Int) < 0 := by
  decide

/-- C6 (amended): the ETA is nil exactly when totalItems is zero, already
reached, or the computed speed is zero; fewer than two samples always give
speed zero; a reported ETA is non-negative whenever the computed speed is
positive — but a negative speed (possible when an absolute update lowers the
item counter, as the counterexample shows) yields a negative reported ETA. -/
theorem eta_nil_and_sign (ot : OperationTracker) :
    (calculateETA ot = none ↔
      ot.totalItems = 0 ∨ ot.totalItems ≤ ot.itemsProcessed ∨ calculateSpeed ot = 0) ∧
    (ot.speedSamples.length < 2 → calculateSpeed ot = 0) ∧
    (∀ e, calculateETA ot = some e → 0 < calculateSpeed ot → 0 ≤ e) := by
  refine ⟨?_, ?_, ?_⟩
  · unfold calculateETA
    split_ifs with h1 h2
    · exact iff_of_true rfl (h1.elim Or.inl (fun b => Or.inr (Or.inl b)))
    · exact iff_of_true rfl (Or.inr (Or.inr h2))
    · refine iff_of_false (by simp) ?_
      push_neg at h1
      rintro (h | h | h)
      · exact h1.1 h
      · exact absurd h (by omega)
      · exact h2 h
  · intro h
    unfold calculateSpeed
    rcases hs : ot.speedSamples with _ | ⟨a, _ | ⟨b, rest⟩⟩
    · rfl
    · rfl
    · rw [hs] at h
      simp at h
      omega
  · intro e he hpos
    unfold calculateETA at he
    split_ifs at he with h1 h2
    push_neg at h1
    have hrem : 0 ≤ ot.totalItems - ot.itemsProcessed := by omega
    have hnn := Int.tdiv_nonneg hrem (Int.le_of_lt hpos)
    exact (Option.some_inj.mp he) ▸ hnn

/-- C7: the broadcast of Tracker.reportProgress is non-blocking per
subscriber: a channel with room receives the snapshot, a full channel is
silently skipped (the trySend function is total — no error, no block), and a
never-drained channel of capacity one that is offered a sequence of snapshots
holds exactly the first one. -/
theorem broadcast_nonblocking (ch : SubChannel) (p u : ProgressInfo) (us : List ProgressInfo) :
    (ch.buffer.length < ch.cap → trySend ch p = { ch with buffer := ch.buffer ++ [p] }) ∧
    (ch.cap ≤ ch.buffer.length → trySend ch p = ch) ∧
    broadcastAll (u :: us) { cap := 1, buffer := [] } = { cap := 1, buffer := [u] } := by
  refine ⟨fun h => ?_, fun h => ?_, ?_⟩
  · unfold trySend
    rw [if_pos h]
  · unfold trySend
    rw [if_neg (by omega)]
  · show broadcastAll us (trySend { cap := 1, buffer := [] } u) = { cap := 1, buffer := [u] }
    have h1 : trySend { cap := 1, buffer := [] } u = { cap := 1, buffer := [u] } := by
      unfold trySend
      simp
    rw [h1]
    have full : ∀ (ps : List ProgressInfo) (c : SubChannel), c.cap ≤ c.buffer.length →
        broadcastAll ps c = c := by
      intro ps
      induction ps with
      | nil => intro c _; rfl
      | cons q qs ih =>
        intro c hc
        show broadcastAll qs (trySend c q) = c
        have : trySend c q = c := by
          unfold trySend
          rw [if_neg (by omega)]
        rw [this]
        exact ih c hc
    exact full us { cap := 1, buffer := [u] } (by simp)

/-- Witness for the broadcast theorem at concrete channels: a full capacity-one
channel skips the snapshot and an empty one receives it. -/
theorem broadcast_nonblocking_witness :
    trySend { cap := 1, buffer := [] } (getProgressInfo trCompletedCex)
        = { cap := 1, buffer := [getProgressInfo trCompletedCex] } ∧
    trySend { cap := 0, buffer := [] } (getProgressInfo trCompletedCex)
        = { cap := 0, buffer := [] } :=
  ⟨(broadcast_nonblocking { cap := 1, buffer := [] } (getProgressInfo trCompletedCex)
      (getProgressInfo trCompletedCex) []).1 (by decide),
    (broadcast_nonblocking { cap := 0, buffer := [] } (getProgressInfo trCompletedCex)
      (getProgressInfo trCompletedCex) []).2.1 (by decide)⟩

/-- Fan-out registry holding one open channel subscribed to op-1, then
unsubscribed, input of the Unsubscribe counterexample. -/
def fanoutAfterUnsub : FanoutState :=
  unsubscribeModel (subscribeModel { subscribers := [], channels := [] } "op-1").1 "op-1"

/-- C10 counterexample: after Subscribe("op-1") and Unsubscribe("op-1") the
registry no longer lists the channel, yet the channel is still open (its
closed flag stays false) — Unsubscribe does not close the channels it drops. -/
theorem unsubscribe_not_closing_cex :
    assocFind fanoutAfterUnsub.subscribers "op-1" = none ∧
    fanoutAfterUnsub.channels = [false] := by
  decide

/-- C10 (amended): Unsubscribe(id) removes every subscriber channel registered
for the ID from the registry, but closes none of them — the channel heap is
left unchanged. -/
theorem unsubscribe_drops_without_closing (fs : FanoutState) (id : String) :
    assocFind (unsubscribeModel fs id).subscribers id = none ∧
    (unsubscribeModel fs id).channels = fs.channels := by
  constructor
  · show assocFind (fs.subscribers.filter (fun kv => kv.1 ≠ id)) id = none
    induction fs.subscribers with
    | nil => rfl
    | cons kv rest ih =>
      by_cases h : kv.1 = id
      · simpa [List.filter, h] using ih
      · simpa [List.filter, h, assocFind] using ih
  · rfl

/-- C1: the concurrency gate of OperationManager.SubmitOperation never fires,
because the accepted ID is never inserted into the active map.  From a fresh
manager with maxConcurrent one, the first submission is accepted with the
active set still empty, and a second submission while the first has not
completed is accepted as well instead of failing with the concurrency-limit
error. -/
theorem submit_never_registers_cex :
    submitOperation { activeOperations := [], maxConcurrent := 1 } "cleanup-1"
        = .accepted "cleanup-1" { activeOperations := [], maxConcurrent := 1 } ∧
    submitOperation { activeOperations := [], maxConcurrent := 1 } "cleanup-2"
        = .accepted "cleanup-2" { activeOperations := [], maxConcurrent := 1 } ∧
    ("cleanup-1" ∈ ({ activeOperations := [], maxConcurrent := 1 } : ManagerState).activeOperations
      → False) := by
  refine ⟨rfl, rfl, ?_⟩
  intro h
  cases h

/-- C2: the engine validates through the factories only, and the cleanup
factory accepts every configuration, so a configuration with negative
parallelism — which the dormant BaseOperation.ValidateConfig rejects — passes
the engine's validation gate: the tracker is started and Execute is invoked,
with no configuration-validation error. -/
theorem engine_validation_gap_cex :
    validateConfig { parallelism := -1, includePatterns := ["/data"] }
        = .error "parallelism cannot be negative" ∧
    factoryValidate .cleanup { parallelism := -1, includePatterns := ["/data"] } = .ok () ∧
    engineValidationTrace .cleanup { parallelism := -1, includePatterns := ["/data"] }
        = { trackerStarted := true, executeInvoked := true, validationError := none } := by
  refine ⟨?_, rfl, rfl⟩
  rfl

/-- C9: the exclusion decision of shouldProcessDirectory is exactly the
claimed disjunction — excluded iff an exclude glob matches the base name, or
an exclude pattern occurs case-insensitively as a substring anywhere in the
path, or the base name is a known system directory, or the base name is
hidden (starts with a dot, excluding the dot and double-dot entries) and no
include pattern matches it. -/
theorem exclusion_policy_iff (dir : String) (cfg : OperationConfig) :
    shouldProcessDirectory dir cfg = false ↔ specExcludedDirectory dir cfg := by
  unfold shouldProcessDirectory specExcludedDirectory
  split_ifs with h1 h2 h3
  · refine iff_of_true rfl ?_
    rw [List.any_eq_true] at h1
    obtain ⟨pat, hmem, hp⟩ := h1
    rw [Bool.or_eq_true] at hp
    cases hp with
    | inl hg => exact Or.inl ⟨pat, hmem, hg⟩
    | inr hsub => exact Or.inr (Or.inl ⟨pat, hmem, hsub⟩)
  · refine iff_of_true rfl (Or.inr (Or.inr (Or.inl ?_)))
    rw [List.any_eq_true] at h2
    obtain ⟨d, hmem, hd⟩ := h2
    rw [beq_iff_eq] at hd
    exact hd ▸ hmem
  · refine iff_of_true rfl (Or.inr (Or.inr (Or.inr ?_)))
    rw [Bool.and_eq_true] at h3
    obtain ⟨hh, hni⟩ := h3
    rw [Bool.not_eq_true'] at hni
    refine ⟨hh, fun pat hmem => ?_⟩
    by_contra hne
    have : cfg.includePatterns.any (fun pat => globMatch pat.data (goBase dir).data) = true := by
      rw [List.any_eq_true]
      exact ⟨pat, hmem, by
        cases hb : globMatch pat.data (goBase dir).data
        · exact absurd hb hne
        · rfl⟩
    rw [this] at hni
    cases hni
  · refine iff_of_false (by simp) ?_
    rintro (⟨pat, hmem, hg⟩ | ⟨pat, hmem, hsub⟩ | hmem | ⟨hh, hincl⟩)
    · exact h1 (List.any_eq_true.mpr ⟨pat, hmem, by rw [Bool.or_eq_true]; exact Or.inl hg⟩)
    · exact h1 (List.any_eq_true.mpr ⟨pat, hmem, by rw [Bool.or_eq_true]; exact Or.inr hsub⟩)
    · exact h2 (List.any_eq_true.mpr ⟨goBase dir, hmem, beq_self_eq_true (goBase dir)⟩)
    · refine h3 ?_
      rw [Bool.and_eq_true]
      refine ⟨hh, ?_⟩
      rw [Bool.not_eq_true']
      cases ha : cfg.includePatterns.any (fun pat => globMatch pat.data (goBase dir).data)
      · rfl
      · rw [List.any_eq_true] at ha
        obtain ⟨pat, hmem2, hp⟩ := ha
        rw [hincl pat hmem2] at hp
        cases hp

/-- Spec example 8 of the repository specification: the exclude pattern
node_modules skips any directory whose path contains that substring, even
nested, while a sibling path without the substring is processed. -/
theorem nodeModules_substring_example :
    shouldProcessDirectory "/root/pkg/node_modules/x"
        { excludePatterns := ["node_modules"] } = false ∧
    shouldProcessDirectory "/root/pkg/sub" { excludePatterns := ["node_modules"] } = true := by
  decide

/-- Dry-run behaviour of the cleanup removal loop, with the loop state
generalized: no filesystem effect is issued, the policy-passing directories
are recorded as would-remove, the rest as skipped. -/
theorem processEmptyDirectories_dry (fs : ModelFS) (cfg : OperationConfig)
    (h : cfg.dryRun = true) :
    ∀ (dirs : List String) (st : CleanupProcState),
      (processEmptyDirectories fs cfg dirs st).effects = st.effects ∧
      (processEmptyDirectories fs cfg dirs st).removedDirs =
        st.removedDirs ++ dirs.filter (fun d => shouldProcessDirectory d cfg) ∧
      (processEmptyDirectories fs cfg dirs st).skippedDirs =
        st.skippedDirs ++ dirs.filter (fun d => !(shouldProcessDirectory d cfg)) := by
  intro dirs
  induction dirs with
  | nil => intro st; simp [processEmptyDirectories]
  | cons d rest ih =>
    intro st
    have hstep : processEmptyDirectories fs cfg (d :: rest) st =
        processEmptyDirectories fs cfg rest (processOneDir fs cfg st d) := rfl
    rcases ih (processOneDir fs cfg st d) with ⟨he, hr, hs⟩
    rw [hstep, he, hr, hs]
    by_cases hd : shouldProcessDirectory d cfg
    · simp [processOneDir, hd, h]
    · simp [processOneDir, hd]

/-- The cleanup removal loop never drops an input: every directory lands in
the removed or the skipped list, dry run or not, success or failure. -/
theorem processEmptyDirectories_total (fs : ModelFS) (cfg : OperationConfig) :
    ∀ (dirs : List String) (st : CleanupProcState),
      (processEmptyDirectories fs cfg dirs st).removedDirs.length +
        (processEmptyDirectories fs cfg dirs st).skippedDirs.length =
        st.removedDirs.length + st.skippedDirs.length + dirs.length := by
  intro dirs
  induction dirs with
  | nil => intro st; simp [processEmptyDirectories]
  | cons d rest ih =>
    intro st
    have hstep : processEmptyDirectories fs cfg (d :: rest) st =
        processEmptyDirectories fs cfg rest (processOneDir fs cfg st d) := rfl
    rw [hstep, ih (processOneDir fs cfg st d)]
    unfold processOneDir
    split_ifs <;> simp <;> omega

/-- AddError only appends: the tracker error list after a batch of AddError
calls is the previous list followed by the batch. -/
theorem addErrorsList_errors : ∀ (es : List String) (tr : OperationTracker),
    (addErrorsList es tr).errors = tr.errors ++ es := by
  intro es
  induction es with
  | nil => intro tr; simp [addErrorsList]
  | cons e rest ih =>
    intro tr
    have hstep : addErrorsList (e :: rest) tr = addErrorsList rest (tr.addError e) := rfl
    rw [hstep, ih (tr.addError e)]
    simp [OperationTracker.addError]

/-- CreateResult copies every tracker error into the result's error list with
the recoverability flag hard-coded to false, and keeps the status it is
handed. -/
theorem createResult_errors (operationType : OperationType) (id : String)
    (tr : OperationTracker) (status : OperationStatus) (summary : String) :
    (createResult operationType id tr status summary).errors =
      tr.errors.map (fun e =>
        { operation := operationType.str, error := e, recoverable := false }) ∧
    (createResult operationType id tr status summary).status = status := by
  refine ⟨?_, rfl⟩
  unfold createResult getProgressInfo
  by_cases h : tr.errors.length > 0
  · simp [h]
  · have hnil : tr.errors = [] := List.length_eq_zero.mp (by omega)
    simp [h, hnil]

/-- Behaviour of the ownership apply loop with the initial state generalized:
every file is processed (changed or skipped), failures append an error string,
and under dry run no filesystem call is made and every file is recorded as
changed. -/
theorem ownershipFold_shape (fs : ModelFS) (uid gid : Int) :
    ∀ (files : List String) (st : OwnershipLoopState),
      ((files.foldl (ownershipStep fs uid gid true) st).effects = st.effects ∧
        (files.foldl (ownershipStep fs uid gid true) st).changedItems =
          st.changedItems ++ files ∧
        (files.foldl (ownershipStep fs uid gid true) st).errors = st.errors) ∧
      (∀ dryRun,
        (files.foldl (ownershipStep fs uid gid dryRun) st).changedItems.length +
          (files.foldl (ownershipStep fs uid gid dryRun) st).skippedItems.length =
          st.changedItems.length + st.skippedItems.length + files.length) := by
  intro files
  induction files with
  | nil => intro st; refine ⟨⟨rfl, by simp, rfl⟩, fun dryRun => by simp⟩
  | cons f rest ih =>
    intro st
    constructor
    · have hstep : (f :: rest).foldl (ownershipStep fs uid gid true) st =
          rest.foldl (ownershipStep fs uid gid true) (ownershipStep fs uid gid true st f) := rfl
      rcases (ih (ownershipStep fs uid gid true st f)).1 with ⟨he, hc, herr⟩
      rw [hstep, he, hc, herr]
      simp [ownershipStep, changeFileOwnership]
    · intro dryRun
      have hstep : (f :: rest).foldl (ownershipStep fs uid gid dryRun) st =
          rest.foldl (ownershipStep fs uid gid dryRun) (ownershipStep fs uid gid dryRun st f) := rfl
      rw [hstep, (ih (ownershipStep fs uid gid dryRun st f)).2 dryRun]
      unfold ownershipStep changeFileOwnership
      split_ifs <;> simp <;> omega

/-- C8: with the dry-run flag set, a cleanup removal pass issues no Remove
call and records every policy-passing candidate as would-remove, and the
ownership primitive issues no Chown call and reports success, so the apply
loop records every file as would-change with an empty effect list. -/
theorem dryrun_no_fs_effects (fs : ModelFS) (cfg : OperationConfig) (dirs : List String)
    (st : CleanupProcState) (path : String) (uid gid : Int) (files : List String) :
    cfg.dryRun = true →
      (processEmptyDirectories fs cfg dirs st).effects = st.effects ∧
      (processEmptyDirectories fs cfg dirs st).removedDirs =
        st.removedDirs ++ dirs.filter (fun d => shouldProcessDirectory d cfg) ∧
      changeFileOwnership fs path uid gid true = (.ok (), []) ∧
      (ownershipApplyLoop fs uid gid true files).effects = [] ∧
      (ownershipApplyLoop fs uid gid true files).changedItems = files := by
  intro h
  rcases processEmptyDirectories_dry fs cfg h dirs st with ⟨he, hr, _⟩
  rcases (ownershipFold_shape fs uid gid files ⟨[], [], [], []⟩).1 with ⟨hoe, hoc, _⟩
  exact ⟨he, hr, rfl, hoe, by simpa using hoc⟩

/-- Witness for the dry-run theorem at a concrete configuration and inputs. -/
theorem dryrun_no_fs_effects_witness :
    (processEmptyDirectories
        { walk := fun _ => [], pathExists := fun _ => true, isEmptyDir := fun _ => some true,
          removeOk := fun _ => false, chownOk := fun _ => false }
        { dryRun := true } ["/r/a"] ⟨[], [], [], []⟩).effects = [] ∧
    (ownershipApplyLoop
        { walk := fun _ => [], pathExists := fun _ => true, isEmptyDir := fun _ => some true,
          removeOk := fun _ => false, chownOk := fun _ => false }
        0 0 true ["/r/f.txt"]).changedItems = ["/r/f.txt"] := by
  refine ⟨?_, ?_⟩
  · exact (dryrun_no_fs_effects
      { walk := fun _ => [], pathExists := fun _ => true, isEmptyDir := fun _ => some true,
        removeOk := fun _ => false, chownOk := fun _ => false }
      { dryRun := true } ["/r/a"] ⟨[], [], [], []⟩ "/r/f.txt" 0 0 ["/r/f.txt"] rfl).1
  · exact ((dryrun_no_fs_effects
      { walk := fun _ => [], pathExists := fun _ => true, isEmptyDir := fun _ => some true,
        removeOk := fun _ => false, chownOk := fun _ => false }
      { dryRun := true } ["/r/a"] ⟨[], [], [], []⟩ "/r/f.txt" 0 0 ["/r/f.txt"] rfl).2).2.2.2

/-- Filesystem in which every Remove and every Chown call fails, input of the
recoverability counterexample. -/
def fsAllFail : ModelFS :=
  { walk := fun _ => []
    pathExists := fun _ => true
    isEmptyDir := fun _ => some true
    removeOk := fun _ => false
    chownOk := fun _ => false }

/-- Cleanup removal pass over two candidates on the all-failing filesystem. -/
def cexProcState : CleanupProcState :=
  processEmptyDirectories fsAllFail {} ["/r/a", "/r/b"] ⟨[], [], [], []⟩

/-- The result a cleanup run with those two failures assembles. -/
def cexCleanupResult : OperationResult :=
  createResult .cleanup "cleanup-1"
    (addErrorsList cexProcState.trackerErrors (startTracker "cleanup-1" .cleanup 4))
    .completed "Cleanup completed: 0 directories removed, 2 skipped"

/-- C5 counterexample: both removal failures are recorded and the operation
completes, but every recorded error carries Recoverable = false — the claim's
recoverable flag is never set; processing also continued past the first
failure (both directories were handled). -/
theorem cleanup_errors_not_recoverable_cex :
    cexCleanupResult.status = OperationStatus.completed ∧
    cexCleanupResult.errors.map (fun e => e.recoverable) = [false, false] ∧
    cexProcState.skippedDirs = ["/r/a", "/r/b"] := by
  decide

/-- C5 (amended): per-item failures during cleanup removal are recorded per
item in the result's error list with the recoverability flag set to false
(not recoverable), processing of the remaining items continues, and the
operation reaches Completed with the failures recorded; ownership-change
failures are likewise survived per item, but they land in the result details
(the typed error list of the ownership result stays empty) while the status
is still Completed. -/
theorem per_item_failures_survive (fs : ModelFS) (cfg : OperationConfig) (dirs : List String)
    (tr : OperationTracker) (id : String) (summary : String) (uid gid : Int)
    (files : List String) :
    ((processEmptyDirectories fs cfg dirs ⟨[], [], [], []⟩).removedDirs.length +
        (processEmptyDirectories fs cfg dirs ⟨[], [], [], []⟩).skippedDirs.length
        = dirs.length) ∧
    ((addErrorsList (processEmptyDirectories fs cfg dirs ⟨[], [], [], []⟩).trackerErrors
        tr).errors =
      tr.errors ++ (processEmptyDirectories fs cfg dirs ⟨[], [], [], []⟩).trackerErrors) ∧
    ((createResult .cleanup id tr .completed summary).errors =
      tr.errors.map (fun e => { operation := "cleanup", error := e, recoverable := false }) ∧
      (createResult .cleanup id tr .completed summary).status = .completed) ∧
    ((ownershipBuildResult id false (ownershipApplyLoop fs uid gid false files)).status
        = .completed ∧
      (ownershipBuildResult id false (ownershipApplyLoop fs uid gid false files)).errors = [] ∧
      (ownershipBuildResult id false (ownershipApplyLoop fs uid gid false files)).detailErrors =
        (ownershipApplyLoop fs uid gid false files).errors ∧
      (ownershipApplyLoop fs uid gid false files).changedItems.length +
        (ownershipApplyLoop fs uid gid false files).skippedItems.length = files.length) := by
  refine ⟨?_, addErrorsList_errors _ tr, createResult_errors .cleanup id tr .completed summary,
    rfl, rfl, rfl, ?_⟩
  · simpa using processEmptyDirectories_total fs cfg dirs ⟨[], [], [], []⟩
  · simpa using (ownershipFold_shape fs uid gid files ⟨[], [], [], []⟩).2 false

/-- Generic preservation of the status and step-count fields across a fold of
tracker mutations that each preserve them. -/
theorem foldl_preserves {α : Type} (f : OperationTracker → α → OperationTracker)
    (hstat : ∀ t a, (f t a).status = t.status)
    (hsteps : ∀ t a, (f t a).totalSteps = t.totalSteps) :
    ∀ (l : List α) (t : OperationTracker),
      (l.foldl f t).status = t.status ∧ (l.foldl f t).totalSteps = t.totalSteps := by
  intro l
  induction l with
  | nil => intro t; exact ⟨rfl, rfl⟩
  | cons a rest ih =>
    intro t
    rw [List.foldl_cons]
    exact ⟨((ih (f t a)).1).trans (hstat t a), ((ih (f t a)).2).trans (hsteps t a)⟩

/-- UpdateStep leaves the status field alone. -/
theorem updateStep_status (t : OperationTracker) (s : String) :
    (t.updateStep s).status = t.status := rfl

/-- UpdateStep leaves the step total alone (it bumps stepsCompleted only). -/
theorem updateStep_totalSteps (t : OperationTracker) (s : String) :
    (t.updateStep s).totalSteps = t.totalSteps := rfl

/-- SetTotals leaves status and step total alone. -/
theorem setTotals_status (t : OperationTracker) (a b : Int) :
    (t.setTotals a b).status = t.status := rfl

/-- SetTotals leaves the step total alone. -/
theorem setTotals_totalSteps (t : OperationTracker) (a b : Int) :
    (t.setTotals a b).totalSteps = t.totalSteps := rfl

/-- A run of IncrementProgress calls leaves status and step total alone. -/
theorem incrementN_preserves (n : Nat) (t : OperationTracker) :
    (incrementN n t).status = t.status ∧ (incrementN n t).totalSteps = t.totalSteps :=
  foldl_preserves (fun acc (_ : Nat) => acc.incrementProgress 1 0 0)
    (fun _ _ => rfl) (fun _ _ => rfl) (List.range n) t

/-- A batch of AddError calls leaves status and step total alone. -/
theorem addErrorsList_preserves (es : List String) (t : OperationTracker) :
    (addErrorsList es t).status = t.status ∧ (addErrorsList es t).totalSteps = t.totalSteps :=
  foldl_preserves (fun acc (e : String) => acc.addError e)
    (fun _ _ => rfl) (fun _ _ => rfl) es t

/-- Every tracker update the cleanup execution issues preserves the status and
the step total of its tracker: the second tracker stays Running with four
steps throughout a successful run. -/
theorem cleanupTrackerOps_preserves (out : CleanupOutcome) (t : OperationTracker) :
    (cleanupTrackerOps out t).status = t.status ∧
    (cleanupTrackerOps out t).totalSteps = t.totalSteps := by
  unfold cleanupTrackerOps
  constructor
  · simp only [updateStep_status, (incrementN_preserves _ _).1, (addErrorsList_preserves _ _).1,
      setTotals_status]
  · simp only [updateStep_totalSteps, (incrementN_preserves _ _).2,
      (addErrorsList_preserves _ _).2, setTotals_totalSteps]

/-- Closed form of the engine-plus-cleanup run on success: the heap holds the
engine's five-step tracker (completed by the engine at the end) and the
operation's four-step tracker (still running), and the registry maps the ID to
the latter. -/
theorem engineRunCleanup_ok (fs : ModelFS) (cfg : OperationConfig) (id : String)
    (out : CleanupOutcome) (h : cleanupRun fs cfg = .ok out) :
    engineRunCleanup fs cfg id =
      ({ heap := [(startTracker id .cleanup 5).complete 0,
                  cleanupTrackerOps out (startTracker id .cleanup 4)]
         registry := [(id, 1)] }, .ok ()) := by
  unfold engineRunCleanup startOperation modifyTracker
  rw [h]
  simp [assocSet, heapModify]

/-- C4: for a successful cleanup run through Engine.ExecuteOperation, the
engine registers a tracker with the hard-coded five steps, the operation's
Execute registers a second four-step tracker under the same ID (replacing the
first in the registry), the engine's final Complete lands on the first,
replaced tracker object, and GetProgress of the ID therefore reports status
Running with four steps, not Completed. -/
theorem engine_tracker_shadowing (fs : ModelFS) (cfg : OperationConfig) (id : String)
    (out : CleanupOutcome) (h : cleanupRun fs cfg = .ok out) :
    assocFind (engineRunCleanup fs cfg id).1.registry id = some 1 ∧
    (∃ info, getProgressModel (engineRunCleanup fs cfg id).1 id = some info ∧
      info.status = .running ∧ info.totalSteps = 4) ∧
    (∃ t1, (engineRunCleanup fs cfg id).1.heap.get? 0 = some t1 ∧
      t1.status = .completed ∧ t1.totalSteps = 5) ∧
    (engineRunCleanup fs cfg id).2 = .ok () := by
  rw [engineRunCleanup_ok fs cfg id out h]
  refine ⟨by simp [assocFind],
    ⟨getProgressInfo (cleanupTrackerOps out (startTracker id .cleanup 4)), ?_, ?_, ?_⟩,
    ⟨(startTracker id .cleanup 5).complete 0, rfl, rfl, rfl⟩, rfl⟩
  · simp [getProgressModel, assocFind]
  · show (cleanupTrackerOps out (startTracker id .cleanup 4)).status = .running
    exact (cleanupTrackerOps_preserves out _).1
  · show (cleanupTrackerOps out (startTracker id .cleanup 4)).totalSteps = 4
    exact (cleanupTrackerOps_preserves out _).2

/-- A trivial filesystem whose walks yield nothing, for the shadowing witness. -/
def fsTrivial : ModelFS :=
  { walk := fun _ => []
    pathExists := fun _ => false
    isEmptyDir := fun _ => none
    removeOk := fun _ => true
    chownOk := fun _ => true }

/-- Configuration with one root path, for the shadowing witness. -/
def cfgOneRoot : OperationConfig :=
  { includePatterns := ["/r"] }

/-- The outcome of the cleanup algorithm on the trivial filesystem. -/
def outTrivial : CleanupOutcome :=
  { totalDirs := 0
    countWalked := 0
    findErrors := []
    findSteps := 0
    emptyDirs := []
    proc := ⟨[], [], [], []⟩ }

/-- Witness for the tracker-shadowing theorem at a concrete run that succeeds. -/
theorem engine_tracker_shadowing_witness :
    assocFind (engineRunCleanup fsTrivial cfgOneRoot "cleanup-1").1.registry "cleanup-1"
        = some 1 ∧
    (∃ info, getProgressModel (engineRunCleanup fsTrivial cfgOneRoot "cleanup-1").1 "cleanup-1"
        = some info ∧ info.status = .running ∧ info.totalSteps = 4) :=
  ⟨(engine_tracker_shadowing fsTrivial cfgOneRoot "cleanup-1" outTrivial rfl).1,
    (engine_tracker_shadowing fsTrivial cfgOneRoot "cleanup-1" outTrivial rfl).2.1⟩

end FileOps
